import Mathlib

/-!
Shallow embedding of the dnd_builder character-creation engine.

The embedded code comes from:
- `dnd_builder/characters.py` (constants, currency helpers, `roll_stat`,
  the `step3_class`, `spell_selection` and `step5_equipment` route handlers),
- `dnd_builder/utils/currency_utils.py`,
- `dnd_builder/utils/armor_utils.py`,
- `dnd_builder/forms/skills_form.py`,
- `dnd_builder/forms/equipment_form_clean.py` (the `EquipmentForm`),
- the static data tables in `dnd_builder/data/`.

Modelling conventions: Python ints become `ℤ` (or `ℕ` where noted), Python
floats become `ℚ` (all monetary values in the source are decimal fractions of
a gold piece), Python `//` and `divmod` become `Int.fdiv` / `Int.fmod`
(floor semantics, as in Python), `int(x)` on the non-negative values arising
here is `Int.floor`, dicts with a fixed key set become structures, `None` /
popped session keys become `Option.none`.  Display-only dictionary fields
(weights, damage dice, human-readable labels) are elided; all fields that any
control flow reads are kept.
-/

namespace DndBuilder

/-- Coin denominations (the four dict keys pp/gp/sp/cp used throughout). -/
inductive Denom where
  | pp | gp | sp | cp
deriving DecidableEq, Repr

/-- A coin-breakdown dict with keys pp/gp/sp/cp (missing keys are 0). -/
structure Coins where
  pp : ℤ := 0
  gp : ℤ := 0
  sp : ℤ := 0
  cp : ℤ := 0
deriving DecidableEq, Repr

/-- Access a coin dict by denomination key. -/
def Coins.get (c : Coins) : Denom → ℤ
  | .pp => c.pp
  | .gp => c.gp
  | .sp => c.sp
  | .cp => c.cp

/-- characters.py line 100: COIN_VALUES = "pp": 500, "gp": 100, "sp": 10, "cp": 1. -/
def COIN_VALUES : Denom → ℤ
  | .pp => 500
  | .gp => 100
  | .sp => 10
  | .cp => 1

/-- characters.py `coins_to_cp`: sum(COIN_VALUES[d] * count for d, count in coins.items()). -/
def coins_to_cp (coins : Coins) : ℤ :=
  COIN_VALUES .pp * coins.pp + COIN_VALUES .gp * coins.gp +
    COIN_VALUES .sp * coins.sp + COIN_VALUES .cp * coins.cp

/-- characters.py `cp_to_coins`: for denom in (pp,gp,sp,cp): result[denom], rem = divmod(rem, COIN_VALUES[denom]). -/
def cp_to_coins (cp_total : ℤ) : Coins :=
  let pp := cp_total.fdiv (COIN_VALUES .pp)
  let rem := cp_total.fmod (COIN_VALUES .pp)
  let gp := rem.fdiv (COIN_VALUES .gp)
  let rem := rem.fmod (COIN_VALUES .gp)
  let sp := rem.fdiv (COIN_VALUES .sp)
  let rem := rem.fmod (COIN_VALUES .sp)
  let cp := rem.fdiv (COIN_VALUES .cp)
  { pp := pp, gp := gp, sp := sp, cp := cp }

/-- currency_utils.py `convert_to_coins`: divmod chain by 1000, 100, 10. -/
def convert_to_coins (total_cp : ℤ) : Coins :=
  let pp := total_cp.fdiv 1000
  let remainder := total_cp.fmod 1000
  let gp := remainder.fdiv 100
  let remainder := remainder.fmod 100
  let sp := remainder.fdiv 10
  let cp := remainder.fmod 10
  { pp := pp, gp := gp, sp := sp, cp := cp }

/-- currency_utils.py `get_cost_in_cp`: pp*1000 + gp*100 + sp*10 + cp. -/
def get_cost_in_cp (cost_dict : Coins) : ℤ :=
  cost_dict.pp * 1000 + cost_dict.gp * 100 + cost_dict.sp * 10 + cost_dict.cp

/-- currency_utils.py `convert_gp_to_coins`: split a (possibly fractional)
gold amount into pp/gp/sp/cp.  Python's float `//`, `%` and `int()` on the
non-negative remainders used here are floors. -/
def convert_gp_to_coins (total_gp : ℚ) : Coins :=
  let pp : ℤ := ⌊total_gp / 10⌋
  let remainder_gp : ℚ := total_gp - 10 * (pp : ℚ)
  let gp : ℤ := ⌊remainder_gp⌋
  let fractional_gp : ℚ := remainder_gp - (gp : ℚ)
  let total_sp : ℚ := fractional_gp * 10
  let sp : ℤ := ⌊total_sp⌋
  let fractional_sp : ℚ := total_sp - (sp : ℚ)
  let cp : ℤ := ⌊fractional_sp * 10⌋
  { pp := pp, gp := gp, sp := sp, cp := cp }

/-- equipment_form_clean.py `EquipmentForm._convert_to_gp`:
pp*10 + gp + sp/10 + cp/100, in gold pieces. -/
def EquipmentForm_convert_to_gp (cost : Coins) : ℚ :=
  (cost.pp : ℚ) * 10 + (cost.gp : ℚ) + (cost.sp : ℚ) / 10 + (cost.cp : ℚ) / 100

/-- The fields of an armor dict that `calculate_ac` reads. -/
structure ArmorDict where
  ac : ℤ
  add_dex : Bool
  max_dex : Option ℤ
deriving DecidableEq, Repr

/-- The field of a shield dict that `calculate_ac` reads. -/
structure ShieldDict where
  ac_bonus : ℤ
deriving DecidableEq, Repr

/-- armor_utils.py `calculate_ac`.  Note the early return when no armor is
worn: in that case the shield argument is never consulted. -/
def calculate_ac (armor : Option ArmorDict) (shield : Option ShieldDict)
    (dex_modifier : ℤ) : ℤ :=
  let base_ac : ℤ := 10
  match armor with
  | none => base_ac + dex_modifier
  | some a =>
    let total_ac := a.ac
    let total_ac :=
      if a.add_dex then
        match a.max_dex with
        | some m => total_ac + min dex_modifier m
        | none => total_ac + dex_modifier
      else total_ac
    match shield with
    | some s => total_ac + s.ac_bonus
    | none => total_ac

/-- characters.py `roll_stat` reroll loop for one die: keep drawing from the
random stream until the draw is not ≤ 2.  The stream is the sequence of
`random.randint(1, 6)` outcomes; the loop returns the first element > 2. -/
def reroll_die (stream : List ℕ) : ℕ :=
  (stream.find? (fun r => decide (2 < r))).getD 0

/-- characters.py `roll_stat` on the four post-reroll dice:
rolls = sorted(rolls); return sum(rolls[1:]). -/
def roll_stat_dice (a b c d : ℕ) : ℕ :=
  (([a, b, c, d].insertionSort (· ≤ ·)).drop 1).sum

/-- characters.py `roll_stat`, taking one random stream per die. -/
def roll_stat (s1 s2 s3 s4 : List ℕ) : ℕ :=
  roll_stat_dice (reroll_die s1) (reroll_die s2) (reroll_die s3) (reroll_die s4)

/-- Spec-side quantity: the sum of the three highest of four dice
(= total minus the minimum). -/
def sum_three_highest (a b c d : ℕ) : ℕ :=
  a + b + c + d - min a (min b (min c d))

/-- The enumerated class set of `step3_class`: Fighter, Wizard, Rogue, Cleric. -/
inductive CharClass where
  | Fighter | Wizard | Rogue | Cleric
deriving DecidableEq, Repr

/-- characters.py `CLASS_HIT_DIE`. -/
def CLASS_HIT_DIE : CharClass → ℤ
  | .Cleric => 8
  | .Fighter => 10
  | .Rogue => 8
  | .Wizard => 6

/-- characters.py `step5_equipment` `class_starting_gold` table. -/
def class_starting_gold : CharClass → ℤ
  | .Cleric => 110
  | .Fighter => 155
  | .Rogue => 100
  | .Wizard => 55

/-- characters.py `step3_class` `primary_abilities` table (dict.get: Fighter is absent). -/
def primary_abilities : CharClass → Option String
  | .Wizard => some "Intelligence"
  | .Cleric => some "Wisdom"
  | .Rogue => some "Dexterity"
  | .Fighter => none

/-- data/equipment/__init__.py `CLASS_PROFICIENCIES`, armor allow-lists. -/
def CLASS_PROFICIENCIES_armor : CharClass → List String
  | .Fighter => ["light", "medium", "heavy", "shields"]
  | .Rogue => ["light"]
  | .Wizard => []
  | .Cleric => ["light", "medium", "shields"]

/-- data/equipment/__init__.py `CLASS_PROFICIENCIES`, weapon allow-lists
(weapon categories and/or specific weapon names). -/
def CLASS_PROFICIENCIES_weapons : CharClass → List String
  | .Fighter => ["simple_melee", "simple_ranged", "martial_melee", "martial_ranged"]
  | .Rogue => ["simple_melee", "simple_ranged", "hand crossbow", "longsword", "rapier", "shortsword"]
  | .Wizard => ["dagger", "dart", "sling", "quarterstaff", "light crossbow"]
  | .Cleric => ["simple_melee", "simple_ranged"]

/-- data/equipment/__init__.py `has_armor_proficiency` (the routes always pass
a chosen class, so the falsy-class early return is not modelled). -/
def has_armor_proficiency (char_class : CharClass) (armor_type : String) : Bool :=
  (CLASS_PROFICIENCIES_armor char_class).contains armor_type

/-- data/equipment/__init__.py `has_weapon_proficiency` for a category string
argument (the dict-argument branch is used only for display in the summary). -/
def has_weapon_proficiency (char_class : CharClass) (weapon_category : String) : Bool :=
  (CLASS_PROFICIENCIES_weapons char_class).contains weapon_category

/-- skills_form.py: `skills_required` as set in `SkillsForm.__init__`
(4 for Rogue, 2 otherwise). -/
def skills_required (char_class : CharClass) : ℕ :=
  if char_class = .Rogue then 4 else 2

/-- skills_form.py `SkillsForm.validate_skills`: exactly the required number
of skills, else a ValidationError. -/
def validate_skills (char_class : CharClass) (skills : List String) : Bool :=
  skills.length = skills_required char_class

/-- skills_form.py `SkillsForm.validate_expertise`: Rogues must pick exactly 2
expertise skills, each among the selected proficiencies; no check otherwise. -/
def validate_expertise (char_class : CharClass) (skills expertise : List String) : Bool :=
  if char_class = .Rogue then
    expertise.length = 2 && expertise.all (fun skill => skills.contains skill)
  else
    true

/-- Conjunction of the two custom validators of `SkillsForm`: the form
accepts a submission exactly when both pass. -/
def skillsFormAccepts (char_class : CharClass) (skills expertise : List String) : Bool :=
  validate_skills char_class skills && validate_expertise char_class skills expertise

/-- data/spells.py `wizard_cantrips` spell ids (display labels elided). -/
def wizard_cantrips : List String :=
  ["acid_splash", "blade_ward", "chill_touch", "dancing_lights", "elementalism",
   "fire_bolt", "friends", "light", "mage_hand", "mending", "message",
   "mind_sliver", "minor_illusion", "poison_spray", "prestidigitation",
   "ray_of_frost", "shocking_grasp", "thunderclap", "toll_the_dead", "true_strike"]

/-- data/spells.py `wizard_level1_spells` spell ids (display labels elided). -/
def wizard_level1_spells : List String :=
  ["alarm", "burning_hands", "charm_person", "chromatic_orb", "color_spray",
   "comprehend_languages", "detect_magic", "disguise_self", "expeditious_retreat",
   "false_life", "feather_fall", "find_familiar", "fog_cloud", "grease",
   "ice_knife", "identify", "illusory_script", "jump", "longstrider",
   "mage_armor", "magic_missile", "protection_from_evil_and_good",
   "ray_of_sickness", "shield", "silent_image", "sleep", "tashas_hideous_laughter",
   "tensers_floating_disk", "thunderwave", "unseen_servant", "witch_bolt"]

/-- data/spells.py `cleric_cantrips` spell ids (labels and concentration flags elided). -/
def cleric_cantrips : List String :=
  ["guidance", "light", "mending", "resistance", "sacred_flame",
   "spare_the_dying", "thaumaturgy", "toll_the_dead", "word_of_radiance"]

/-- data/spells.py `level1_cleric_spells` spell ids (display labels elided). -/
def level1_cleric_spells : List String :=
  ["bane", "bless", "command", "create_or_destroy_water", "cure_wounds",
   "detect_evil_and_good", "detect_magic", "detect_poison_and_disease",
   "guiding_bolt", "healing_word", "inflict_wounds",
   "protection_from_evil_and_good", "purify_food_and_drink", "sanctuary",
   "shield_of_faith"]

/-- Outcome of the `spell_selection` route handler. -/
inductive SpellStepResult where
  | redirect_to_class
  | flash_error (msg : String)
  | success (cantrips level1_spells : List String) (spells_preparable : Option ℤ)
deriving DecidableEq, Repr

/-- Whether a `spell_selection` outcome stored the selection. -/
def SpellStepResult.isSuccess : SpellStepResult → Bool
  | .success _ _ _ => true
  | _ => false

/-- characters.py `spell_selection` (POST branch).  `cantrips` and
`level1_spells` are the parsed spell ids (`parse_spell_data` is collaborator
input parsing).  `wisdom` is the adjusted wisdom score read from the session
(default 10).  Both classes use `creation_spells = 6`; the submitted ids are
never checked against the class spell lists. -/
def spell_selection (char_class : Option CharClass) (wisdom : ℤ)
    (cantrips level1_spells : List String) : SpellStepResult :=
  match char_class with
  | none => .redirect_to_class
  | some c =>
    if c ≠ .Wizard ∧ c ≠ .Cleric then .redirect_to_class
    else
      let creation_spells : ℕ := 6
      let spells_preparable : ℤ :=
        if c = .Cleric then max 1 ((wisdom - 10).fdiv 2 + 1) else 6
      if cantrips.length ≠ 3 then
        .flash_error "Select exactly 3 cantrips."
      else if level1_spells.length ≠ creation_spells then
        if c = .Wizard then
          .flash_error "Select exactly 3 cantrips and 6 first-level spells for your spellbook."
        else
          .flash_error "Select exactly 3 cantrips and 6 first-level spells to prepare."
      else
        .success cantrips level1_spells
          (if c = .Cleric then some spells_preparable else none)

/-- Sparse cost dict with only a gp entry. -/
def costGp (n : ℤ) : Coins := { gp := n }

/-- Sparse cost dict with only a sp entry. -/
def costSp (n : ℤ) : Coins := { sp := n }

/-- Sparse cost dict with only a cp entry. -/
def costCp (n : ℤ) : Coins := { cp := n }

/-- The non-shield keys of the `ARMOR` dict in data/equipment/armor.py. -/
inductive ArmorCat where
  | light | medium | heavy
deriving DecidableEq, Repr

/-- The dict-key string of an armor category. -/
def ArmorCat.str : ArmorCat → String
  | .light => "light"
  | .medium => "medium"
  | .heavy => "heavy"

/-- An entry of the `ARMOR` table (weight elided; every field any control
flow reads is kept). -/
structure ArmorItem where
  name : String
  cost : Coins
  ac : ℤ
  add_dex : Bool
  max_dex : Option ℤ
  stealth_disadvantage : Bool
deriving DecidableEq, Repr

/-- data/equipment/armor.py `ARMOR`, non-shield categories. -/
def ARMOR : ArmorCat → List ArmorItem
  | .light =>
    [⟨"Padded", costGp 5, 11, true, none, true⟩,
     ⟨"Leather", costGp 10, 11, true, none, false⟩,
     ⟨"Studded Leather", costGp 45, 12, true, none, false⟩]
  | .medium =>
    [⟨"Hide", costGp 10, 12, true, some 2, false⟩,
     ⟨"Chain Shirt", costGp 50, 13, true, some 2, false⟩,
     ⟨"Scale Mail", costGp 50, 14, true, some 2, true⟩,
     ⟨"Breastplate", costGp 400, 14, true, some 2, false⟩,
     ⟨"Half Plate", costGp 750, 15, true, some 2, true⟩]
  | .heavy =>
    [⟨"Ring Mail", costGp 30, 14, false, some 0, true⟩,
     ⟨"Chain Mail", costGp 75, 16, false, some 0, true⟩,
     ⟨"Splint", costGp 200, 17, false, some 0, true⟩,
     ⟨"Plate", costGp 1500, 18, false, some 0, true⟩]

/-- An entry of the `ARMOR["shield"]` list (weight elided). -/
structure ShieldItem where
  name : String
  cost : Coins
  ac_bonus : ℤ
deriving DecidableEq, Repr

/-- data/equipment/armor.py `ARMOR["shield"]`. -/
def ARMOR_shield : List ShieldItem := [⟨"Shield", costGp 10, 2⟩]

/-- The keys of the `WEAPONS` dict in data/equipment/weapons.py. -/
inductive WeaponCat where
  | simple_melee | simple_ranged | martial_melee | martial_ranged
deriving DecidableEq, Repr

/-- The dict-key string of a weapon category. -/
def WeaponCat.str : WeaponCat → String
  | .simple_melee => "simple_melee"
  | .simple_ranged => "simple_ranged"
  | .martial_melee => "martial_melee"
  | .martial_ranged => "martial_ranged"

/-- An entry of the `WEAPONS` table (damage, properties, weight and range are
display-only for the routes modelled here and are elided). -/
structure WeaponItem where
  name : String
  cost : Coins
deriving DecidableEq, Repr

/-- data/equipment/weapons.py `WEAPONS`. -/
def WEAPONS : WeaponCat → List WeaponItem
  | .simple_melee =>
    [⟨"Sickle", costGp 1⟩, ⟨"Club", costSp 1⟩, ⟨"Dagger", costGp 2⟩,
     ⟨"Greatclub", costSp 2⟩, ⟨"Handaxe", costGp 5⟩, ⟨"Light Hammer", costGp 2⟩,
     ⟨"Mace", costGp 5⟩, ⟨"Quarterstaff", costSp 2⟩, ⟨"Spear", costGp 1⟩]
  | .simple_ranged =>
    [⟨"Light Crossbow", costGp 25⟩, ⟨"Dart", costCp 5⟩, ⟨"Shortbow", costGp 25⟩,
     ⟨"Sling", costSp 1⟩]
  | .martial_melee =>
    [⟨"Flail", costGp 10⟩, ⟨"Glaive", costGp 20⟩, ⟨"Greataxe", costGp 30⟩,
     ⟨"Greatsword", costGp 50⟩, ⟨"Halberd", costGp 20⟩, ⟨"Lance", costGp 10⟩,
     ⟨"Maul", costGp 10⟩, ⟨"Morningstar", costGp 15⟩, ⟨"Pike", costGp 5⟩,
     ⟨"Scimitar", costGp 25⟩, ⟨"Trident", costGp 5⟩, ⟨"Warhammer", costGp 15⟩,
     ⟨"War Pick", costGp 5⟩, ⟨"Whip", costGp 2⟩, ⟨"Battleaxe", costGp 10⟩,
     ⟨"Longsword", costGp 15⟩, ⟨"Rapier", costGp 25⟩, ⟨"Shortsword", costGp 10⟩]
  | .martial_ranged =>
    [⟨"Blowgun", costGp 10⟩, ⟨"Hand Crossbow", costGp 75⟩,
     ⟨"Heavy Crossbow", costGp 50⟩, ⟨"Longbow", costGp 50⟩]

/-- data/equipment/adventuring_gear.py `ADVENTURING_GEAR` as (key, cost)
pairs (display names elided; the routes key gear purely by id). -/
def ADVENTURING_GEAR : List (String × Coins) :=
  [("acid", costGp 25), ("alchemists_fire", costGp 50), ("antitoxin", costGp 50),
   ("backpack", costGp 2), ("ball_bearings", costGp 1), ("barrel", costGp 2),
   ("basket", costSp 4), ("bedroll", costGp 1), ("bell", costGp 1),
   ("blanket", costSp 5), ("block_and_tackle", costGp 1), ("book", costGp 25),
   ("glass_bottle", costGp 2), ("bucket", costCp 5), ("burglars_pack", costGp 16),
   ("caltrops", costGp 1), ("candle", costCp 1), ("crossbow_bolt_case", costGp 1),
   ("map_case", costGp 1), ("chain", costGp 5), ("chest", costGp 5),
   ("climbers_kit", costGp 25), ("clothes_fine", costGp 15),
   ("clothes_travelers", costGp 2), ("component_pouch", costGp 25),
   ("costume", costGp 5), ("crowbar", costGp 2), ("diplomats_pack", costGp 39),
   ("dungeoneers_pack", costGp 12), ("entertainers_pack", costGp 40),
   ("explorers_pack", costGp 10), ("flask", costCp 2), ("grappling_hook", costGp 2),
   ("healers_kit", costGp 5), ("holy_water", costGp 25), ("hunting_trap", costGp 5),
   ("ink", costGp 10), ("ink_pen", costCp 2), ("jug", costCp 2),
   ("ladder", costSp 1), ("lamp", costSp 5), ("lantern_bullseye", costGp 10),
   ("lantern_hooded", costGp 5), ("lock", costGp 10), ("magnifying_glass", costGp 100),
   ("manacles", costGp 2), ("map", costGp 1), ("mirror", costGp 5),
   ("net", costGp 1), ("oil", costSp 1), ("paper", costSp 2),
   ("parchment", costSp 1), ("perfume", costGp 5), ("basic_poison", costGp 100),
   ("pole", costCp 5), ("iron_pot", costGp 2), ("potion_of_healing", costGp 50),
   ("pouch", costSp 5), ("priests_pack", costGp 33), ("quiver", costGp 1),
   ("portable_ram", costGp 4), ("rations", costSp 5), ("robe", costGp 1),
   ("rope_hemp", costGp 1), ("sack", costCp 1), ("scholars_pack", costGp 40),
   ("shovel", costGp 2), ("signal_whistle", costCp 5), ("iron_spikes", costGp 1),
   ("string", costSp 1), ("tent", costGp 2), ("tinderbox", costSp 5),
   ("torch", costCp 1), ("vial", costGp 1), ("waterskin", costSp 2)]

/-- data/equipment/adventuring_gear.py `AMMUNITION_OPTIONS` (key, cost). -/
def AMMUNITION_OPTIONS : List (String × Coins) :=
  [("arrows", costGp 1), ("bolts", costGp 1), ("needles", costGp 1)]

/-- data/equipment/adventuring_gear.py `ARCANE_FOCUS_OPTIONS` (key, cost). -/
def ARCANE_FOCUS_OPTIONS : List (String × Coins) :=
  [("crystal", costGp 10), ("orb", costGp 20), ("rod", costGp 10),
   ("staff", costGp 5), ("wand", costGp 10)]

/-- data/equipment/adventuring_gear.py `HOLY_SYMBOL_OPTIONS` (key, cost). -/
def HOLY_SYMBOL_OPTIONS : List (String × Coins) :=
  [("amulet", costGp 5), ("emblem", costGp 5), ("reliquary", costGp 5)]

/-- data/equipment/adventuring_gear.py `MUSICAL_INSTRUMENT_OPTIONS` (key, cost). -/
def MUSICAL_INSTRUMENT_OPTIONS : List (String × Coins) :=
  [("bagpipes", costGp 30), ("drum", costGp 6), ("dulcimer", costGp 25),
   ("flute", costGp 2), ("lute", costGp 35), ("lyre", costGp 30),
   ("horn", costGp 3), ("pan_flute", costGp 12), ("shawm", costGp 2),
   ("viol", costGp 30)]

/-- data/equipment/adventuring_gear.py `TOOL_OPTIONS` (key, cost). -/
def TOOL_OPTIONS : List (String × Coins) :=
  [("alchemists_supplies", costGp 50), ("brewers_supplies", costGp 20),
   ("calligraphers_supplies", costGp 10), ("carpenters_tools", costGp 8),
   ("cartographers_tools", costGp 15), ("cobblers_tools", costGp 5),
   ("cooks_utensils", costGp 2), ("glassblowers_tools", costGp 30),
   ("jewelers_tools", costGp 25), ("leatherworkers_tools", costGp 5),
   ("masons_tools", costGp 10), ("painters_supplies", costGp 10),
   ("potters_tools", costGp 10), ("smiths_tools", costGp 20),
   ("tinkers_tools", costGp 50), ("weavers_tools", costGp 1),
   ("woodcarvers_tools", costGp 1), ("disguise_kit", costGp 25),
   ("forgery_kit", costGp 15), ("herbalism_kit", costGp 5),
   ("navigators_tools", costGp 25), ("poisoners_kit", costGp 50),
   ("thieves_tools", costGp 25)]

/-- Key lookup in an options dict. -/
def optionCost (options : List (String × Coins)) (key : String) : Option Coins :=
  (options.find? (fun e => e.1 == key)).map (fun e => e.2)

/-- Membership test used for `if selection in OPTIONS`. -/
def optionHasKey (options : List (String × Coins)) (key : String) : Bool :=
  (options.find? (fun e => e.1 == key)).isSome

/-- Catalog lookup used by `calculate_total_cost` / `selected_equipment` for
armor: next((a for a in ARMOR[category] if a.name == name), None). -/
def findArmor (category : ArmorCat) (name : String) : Option ArmorItem :=
  (ARMOR category).find? (fun a => a.name == name)

/-- Catalog lookup for the shield list. -/
def findShield (name : String) : Option ShieldItem :=
  ARMOR_shield.find? (fun s => s.name == name)

/-- Catalog lookup for a weapon within one category. -/
def findWeapon (category : WeaponCat) (name : String) : Option WeaponItem :=
  (WEAPONS category).find? (fun w => w.name == name)

/-- The `SpecialEquipmentForm` fields (equipment_categories.py).  A
`SelectField` whose data is the empty string is modelled as `none`. -/
structure SpecialEquipmentData where
  has_tools : Bool := false
  tool_selection : Option String := none
  has_musical_instrument : Bool := false
  musical_instrument_selection : Option String := none
  has_arcane_focus : Bool := false
  arcane_focus_selection : Option String := none
  has_holy_symbol : Bool := false
  holy_symbol_selection : Option String := none
  has_ammunition : Bool := false
  ammunition_selection : Option String := none
  has_spell_scroll : Bool := false
  spell_scroll_level : String := "0"
  spell_scroll_class : String := "wizard"
  spell_selection : Option String := none
deriving DecidableEq, Repr

/-- The selection fields of `EquipmentForm` (equipment_form_clean.py).  The
"category:name" composite values of the armor/shield/weapon selects are
modelled pre-split; each weapon multi-select carries only names because
`_setup_choices` prefixes each choice with the field's own category. -/
structure EquipmentFormData where
  armor : Option (ArmorCat × String) := none
  shield : Option String := none
  simple_melee : List String := []
  simple_ranged : List String := []
  martial_melee : List String := []
  martial_ranged : List String := []
  adventuring_gear : List String := []
  special_equipment : SpecialEquipmentData := {}
deriving DecidableEq, Repr

/-- WTForms field-level validation performed by `super().validate()`: every
select-field value must be one of the choices installed by
`_setup_choices` (armor/weapons/gear from the catalogs, special-equipment
selections from the options dicts, spell-scroll level from 0/1). -/
def choices_ok (form : EquipmentFormData) : Bool :=
  (match form.armor with
   | none => true
   | some (category, name) => (findArmor category name).isSome) &&
  (match form.shield with
   | none => true
   | some name => (findShield name).isSome) &&
  form.simple_melee.all (fun n => (findWeapon .simple_melee n).isSome) &&
  form.simple_ranged.all (fun n => (findWeapon .simple_ranged n).isSome) &&
  form.martial_melee.all (fun n => (findWeapon .martial_melee n).isSome) &&
  form.martial_ranged.all (fun n => (findWeapon .martial_ranged n).isSome) &&
  form.adventuring_gear.all (fun k => optionHasKey ADVENTURING_GEAR k) &&
  (match form.special_equipment.tool_selection with
   | none => true
   | some k => optionHasKey TOOL_OPTIONS k) &&
  (match form.special_equipment.musical_instrument_selection with
   | none => true
   | some k => optionHasKey MUSICAL_INSTRUMENT_OPTIONS k) &&
  (match form.special_equipment.arcane_focus_selection with
   | none => true
   | some k => optionHasKey ARCANE_FOCUS_OPTIONS k) &&
  (match form.special_equipment.holy_symbol_selection with
   | none => true
   | some k => optionHasKey HOLY_SYMBOL_OPTIONS k) &&
  (match form.special_equipment.ammunition_selection with
   | none => true
   | some k => optionHasKey AMMUNITION_OPTIONS k) &&
  (form.special_equipment.spell_scroll_level == "0" ||
   form.special_equipment.spell_scroll_level == "1")

/-- Cost in gp of one special-equipment slot: counted only when the checkbox
is on, a selection is present, and the key is in the options dict. -/
def specialSlotCost (options : List (String × Coins)) (has : Bool)
    (selection : Option String) : ℚ :=
  if has then
    match selection with
    | some key =>
      match optionCost options key with
      | some cost => EquipmentForm_convert_to_gp cost
      | none => 0
    | none => 0
  else 0

/-- equipment_form_clean.py `EquipmentForm.calculate_total_cost`: total cost
of all selected equipment, in (fractional) gold pieces. -/
def calculate_total_cost (form : EquipmentFormData) : ℚ :=
  let armor_cost : ℚ :=
    match form.armor with
    | some (category, name) =>
      match findArmor category name with
      | some a => EquipmentForm_convert_to_gp a.cost
      | none => 0
    | none => 0
  let shield_cost : ℚ :=
    match form.shield with
    | some name =>
      match findShield name with
      | some s => EquipmentForm_convert_to_gp s.cost
      | none => 0
    | none => 0
  let weapon_cost (category : WeaponCat) (names : List String) : ℚ :=
    (names.map (fun n =>
      match findWeapon category n with
      | some w => EquipmentForm_convert_to_gp w.cost
      | none => 0)).sum
  let se := form.special_equipment
  let special_cost : ℚ :=
    specialSlotCost ARCANE_FOCUS_OPTIONS se.has_arcane_focus se.arcane_focus_selection +
    specialSlotCost HOLY_SYMBOL_OPTIONS se.has_holy_symbol se.holy_symbol_selection +
    specialSlotCost AMMUNITION_OPTIONS se.has_ammunition se.ammunition_selection +
    specialSlotCost MUSICAL_INSTRUMENT_OPTIONS se.has_musical_instrument
      se.musical_instrument_selection +
    specialSlotCost TOOL_OPTIONS se.has_tools se.tool_selection +
    (if se.has_spell_scroll then
      if se.spell_scroll_level == "0" then 30
      else if se.spell_scroll_level == "1" then 50
      else 0
     else 0)
  let gear_cost : ℚ :=
    (form.adventuring_gear.map (fun k =>
      match optionCost ADVENTURING_GEAR k with
      | some cost => EquipmentForm_convert_to_gp cost
      | none => 0)).sum
  armor_cost + shield_cost +
    weapon_cost .simple_melee form.simple_melee +
    weapon_cost .simple_ranged form.simple_ranged +
    weapon_cost .martial_melee form.martial_melee +
    weapon_cost .martial_ranged form.martial_ranged +
    special_cost + gear_cost

/-- equipment_form_clean.py `EquipmentForm.validate`: field validation, then
budget check, then armor proficiency, then the class restrictions, then a
second purchase budget check.  Shield and weapon proficiencies are never
consulted here. -/
def EquipmentForm.validate (char_class : CharClass) (form : EquipmentFormData)
    (budget : ℚ) (action : String) : Bool :=
  if !(choices_ok form) then false
  else
    let total_cost := calculate_total_cost form
    if total_cost > budget then false
    else if (match form.armor with
             | some (category, _) => !(has_armor_proficiency char_class category.str)
             | none => false) then false
    else if char_class == .Wizard && form.special_equipment.has_holy_symbol
            && form.special_equipment.holy_symbol_selection.isSome then false
    else if char_class == .Cleric && form.special_equipment.has_arcane_focus
            && form.special_equipment.arcane_focus_selection.isSome then false
    else if action == "purchase" && total_cost > budget then false
    else true

/-- The `remaining_funds` attribute computed by `EquipmentForm.validate`. -/
def EquipmentForm.remaining_funds (form : EquipmentFormData) (budget : ℚ) : ℚ :=
  budget - calculate_total_cost form

/-- The armor dict built by `selected_equipment` (all source fields kept). -/
structure ResolvedArmor where
  name : String
  type : ArmorCat
  ac : ℤ
  add_dex : Bool
  max_dex : Option ℤ
  cost : Coins
  stealth_disadvantage : Bool
deriving DecidableEq, Repr

/-- The shield dict built by `selected_equipment`. -/
structure ResolvedShield where
  name : String
  ac_bonus : ℤ
  cost : Coins
deriving DecidableEq, Repr

/-- A weapon dict built by `selected_equipment` (damage/properties elided). -/
structure ResolvedWeapon where
  name : String
  category : WeaponCat
  cost : Coins
deriving DecidableEq, Repr

/-- The `special_equipment` sub-dict built by `selected_equipment`
(each entry keyed by option id, with its cost). -/
structure ResolvedSpecial where
  arcane_focus : Option (String × Coins) := none
  holy_symbol : Option (String × Coins) := none
  musical_instrument : Option (String × Coins) := none
  tools : Option (String × Coins) := none
  ammunition : Option (String × Coins) := none
deriving DecidableEq, Repr

/-- One resolved special-equipment slot of `selected_equipment`. -/
def resolveSpecialSlot (options : List (String × Coins)) (has : Bool)
    (selection : Option String) : Option (String × Coins) :=
  if has then
    match selection with
    | some key =>
      match optionCost options key with
      | some cost => some (key, cost)
      | none => none
    | none => none
  else none

/-- equipment_form_clean.py `EquipmentForm.selected_equipment` (before the
route adds `armor_class` and `unusable_items`). -/
structure SelectedEquipment where
  armor : Option ResolvedArmor
  shield : Option ResolvedShield
  weapons : List ResolvedWeapon
  adventuring_gear : List (String × Coins)
  special_equipment : ResolvedSpecial
  total_cost_gp : ℚ
deriving DecidableEq, Repr

/-- equipment_form_clean.py `EquipmentForm.selected_equipment`. -/
def selected_equipment (form : EquipmentFormData) : SelectedEquipment :=
  let armor : Option ResolvedArmor :=
    match form.armor with
    | some (category, name) =>
      (findArmor category name).map (fun a =>
        ⟨a.name, category, a.ac, a.add_dex, a.max_dex, a.cost, a.stealth_disadvantage⟩)
    | none => none
  let shield : Option ResolvedShield :=
    match form.shield with
    | some name => (findShield name).map (fun s => ⟨s.name, s.ac_bonus, s.cost⟩)
    | none => none
  let weaponsIn (category : WeaponCat) (names : List String) : List ResolvedWeapon :=
    names.filterMap (fun n => (findWeapon category n).map (fun w =>
      ⟨w.name, category, w.cost⟩))
  let weapons :=
    weaponsIn .simple_melee form.simple_melee ++
    weaponsIn .simple_ranged form.simple_ranged ++
    weaponsIn .martial_melee form.martial_melee ++
    weaponsIn .martial_ranged form.martial_ranged
  let gear := form.adventuring_gear.filterMap (fun k =>
    (optionCost ADVENTURING_GEAR k).map (fun cost => (k, cost)))
  let se := form.special_equipment
  let special : ResolvedSpecial :=
    { arcane_focus := resolveSpecialSlot ARCANE_FOCUS_OPTIONS se.has_arcane_focus
        se.arcane_focus_selection
      holy_symbol := resolveSpecialSlot HOLY_SYMBOL_OPTIONS se.has_holy_symbol
        se.holy_symbol_selection
      musical_instrument := resolveSpecialSlot MUSICAL_INSTRUMENT_OPTIONS
        se.has_musical_instrument se.musical_instrument_selection
      tools := resolveSpecialSlot TOOL_OPTIONS se.has_tools se.tool_selection
      ammunition := resolveSpecialSlot AMMUNITION_OPTIONS se.has_ammunition
        se.ammunition_selection }
  { armor := armor, shield := shield, weapons := weapons,
    adventuring_gear := gear, special_equipment := special,
    total_cost_gp := calculate_total_cost form }

/-- One entry of the `unusable_items` list built in `step5_equipment`
(dict keys item / type / reason). -/
structure UnusableItem where
  item : String
  type : String
  reason : String
deriving DecidableEq, Repr

/-- characters.py `step5_equipment`, proficiency annotation pass: flag the
armor if not proficient with its category, the shield if not proficient with
shields, and each weapon whose category starts with "martial" when not
proficient with that category.  (Simple weapons are never flagged.) -/
def compute_unusable_items (char_class : CharClass) (sel : SelectedEquipment) :
    List UnusableItem :=
  (match sel.armor with
   | some a =>
     if !(has_armor_proficiency char_class a.type.str) then
       [⟨a.name, "armor", "Not proficient with " ++ a.type.str ++ " armor"⟩]
     else []
   | none => []) ++
  (match sel.shield with
   | some s =>
     if !(has_armor_proficiency char_class "shields") then
       [⟨s.name, "shield", "Not proficient with shields"⟩]
     else []
   | none => []) ++
  sel.weapons.filterMap (fun w =>
    if w.category.str.startsWith "martial" &&
        !(has_weapon_proficiency char_class w.category.str) then
      some ⟨w.name, "weapon", "Not proficient with martial weapons"⟩
    else none)

/-- The equipment dict as stored in the session by `step5_equipment`:
`selected_equipment` plus the route-added `armor_class` and
`unusable_items` keys. -/
structure StoredEquipment where
  armor : Option ResolvedArmor
  shield : Option ResolvedShield
  weapons : List ResolvedWeapon
  adventuring_gear : List (String × Coins)
  special_equipment : ResolvedSpecial
  total_cost_gp : ℚ
  armor_class : ℤ
  unusable_items : List UnusableItem
deriving DecidableEq, Repr

/-- characters.py `step5_equipment` lines 649-683: resolve the form's
selection and annotate it with the base AC and the proficiency warnings. -/
def resolve_with_flags (char_class : CharClass) (form : EquipmentFormData)
    (dex_mod : ℤ) : StoredEquipment :=
  let sel := selected_equipment form
  { armor := sel.armor, shield := sel.shield, weapons := sel.weapons,
    adventuring_gear := sel.adventuring_gear,
    special_equipment := sel.special_equipment,
    total_cost_gp := sel.total_cost_gp,
    armor_class := 10 + dex_mod,
    unusable_items := compute_unusable_items char_class sel }

/-- The Flask session keys the modelled routes read or write.  A popped or
never-set key is `none`.  (`skills` is the key written by
`fighter_selection`; `skill_proficiencies` is the one written by
`step4_skills`.) -/
structure Session where
  charClass : Option CharClass := none
  constitution_modifier : Option ℤ := none
  adjusted_dexterity : Option ℤ := none
  expertise : Option (List String) := none
  equipment : Option StoredEquipment := none
  coins_left : Option Coins := none
  skill_proficiencies : Option (List String) := none
  skills : Option (List String) := none
  fighting_style : Option String := none
  cantrips : Option (List String) := none
  level1_spells : Option (List String) := none
  spells_preparable : Option ℤ := none
  max_hp : Option ℤ := none
  current_hp : Option ℤ := none
  primary_ability : Option String := none
  previous_class : Option CharClass := none
deriving DecidableEq, Repr

/-- characters.py `step3_class` (validated POST branch): store the class,
clear `expertise` only for non-Rogue classes, pop the downstream keys,
compute HP, and set the primary ability (Fighter: from the submitted choice
if present, otherwise the step re-renders with the mutations already made;
others: from the static table, popping `fighting_style` again). -/
def step3_class (s : Session) (chosen_class : CharClass)
    (primary_ability : Option String) : Session :=
  let s := { s with charClass := some chosen_class }
  let s := if chosen_class ≠ CharClass.Rogue then { s with expertise := some [] } else s
  let s := { s with equipment := none, coins_left := none,
                    skill_proficiencies := none, fighting_style := none,
                    cantrips := none, level1_spells := none }
  let hit_die := CLASS_HIT_DIE chosen_class
  let con_mod := s.constitution_modifier.getD 0
  let max_hp := hit_die + con_mod
  let s := { s with max_hp := some max_hp, current_hp := some max_hp }
  if chosen_class = .Fighter then
    match primary_ability with
    | some p => { s with primary_ability := some p }
    | none => s
  else
    { s with primary_ability := primary_abilities chosen_class,
             fighting_style := none }

/-- HTTP method of a request to `step5_equipment`. -/
inductive HttpMethod where
  | GET | POST
deriving DecidableEq, Repr

/-- A request to the `step5_equipment` route: the method, the `action` form
value, the parsed form fields, and whether the GET referrer is the skills
step. -/
structure Step5Request where
  method : HttpMethod
  action : String := ""
  form : EquipmentFormData := {}
  referrer_from_step4 : Bool := false
deriving DecidableEq, Repr

/-- The dexterity modifier computed at the top of `step5_equipment`:
(session adjusted_stats dexterity, default 10, minus 10) floor-divided by 2. -/
def Session.dex_mod (s : Session) : ℤ :=
  ((s.adjusted_dexterity.getD 10) - 10).fdiv 2

/-- characters.py `step5_equipment`, session effects.  Every request with a
chosen class first resets `coins_left` to the class's full starting gold and
records `previous_class`; a validated POST then stores the converted
remaining funds (line 647) regardless of the action, and a purchase with
non-negative remaining funds additionally stores the resolved equipment. -/
def step5_equipment (s : Session) (req : Step5Request) : Session :=
  match s.charClass with
  | none => s
  | some char_class =>
    let s := if req.method = .GET && req.referrer_from_step4 then
               { s with coins_left := none, equipment := none }
             else s
    let dex_mod := s.dex_mod
    let starting_gp := class_starting_gold char_class
    let s := { s with coins_left := some { pp := 0, gp := starting_gp, sp := 0, cp := 0 },
                      previous_class := some char_class }
    let budget_gp : ℚ :=
      match s.coins_left with
      | some c => (c.gp : ℚ)
      | none => (starting_gp : ℚ)
    match req.method with
    | .GET => s
    | .POST =>
      if req.action == "toggle_special" then s
      else if req.action == "update_spells" then s
      else
        let is_valid := EquipmentForm.validate char_class req.form budget_gp req.action
        if is_valid then
          let total_cost_gp := calculate_total_cost req.form
          let remaining_gp := budget_gp - total_cost_gp
          let remaining_coins := convert_gp_to_coins remaining_gp
          let s := { s with coins_left := some remaining_coins }
          let equipment := resolve_with_flags char_class req.form dex_mod
          if req.action == "preview" then s
          else if req.action == "purchase" then
            if EquipmentForm.remaining_funds req.form budget_gp ≥ 0 then
              { s with equipment := some equipment,
                       coins_left := some (convert_gp_to_coins
                         (budget_gp - calculate_total_cost req.form)) }
            else s
          else s
        else s

/-! Theorems settling the claims. -/

/-- C2: the program does NOT use one consistent 1 pp = 1000 cp rate.
`coins_to_cp` (via `COIN_VALUES` in characters.py) values 1 pp at 500 cp,
while `get_cost_in_cp` and `EquipmentForm._convert_to_gp` value 1 pp at
1000 cp (= 10 gp).  Evaluating the helpers at the one-platinum breakdown
exhibits the divergence. -/
theorem C2_coin_rate_divergence :
    coins_to_cp { pp := 1 } = 500 ∧
    get_cost_in_cp { pp := 1 } = 1000 ∧
    EquipmentForm_convert_to_gp { pp := 1 } = 10 ∧
    COIN_VALUES .pp = 500 := by
  refine ⟨by decide, by decide, ?_, by decide⟩
  norm_num [EquipmentForm_convert_to_gp]

/-- C3 counterexample: the breakdown with 5 gp (well-formed under the spec's
1 pp = 10 gp rates) does not survive the characters.py round trip:
`cp_to_coins (coins_to_cp c)` turns 5 gp into 1 pp because
`COIN_VALUES` prices the platinum at 500 cp. -/
theorem C3_roundtrip_counterexample :
    cp_to_coins (coins_to_cp { gp := 5 }) = { pp := 1 } ∧
    cp_to_coins (coins_to_cp { gp := 5 }) ≠ { gp := 5 } := by
  constructor <;> decide

/-- C3 amended: the scalar-to-breakdown-to-scalar direction is lossless for
every copper total (for both converter pairs), and the
breakdown-to-scalar-to-breakdown direction holds exactly on breakdowns that
are canonical for the converter's own rates: gp ≤ 4 for the characters.py
pair (`COIN_VALUES` prices 1 pp at 500 cp = 5 gp), gp ≤ 9 for the
currency_utils.py pair, with sp, cp ≤ 9 in both. -/
theorem C3_roundtrip_amended :
    (∀ t : ℤ, coins_to_cp (cp_to_coins t) = t) ∧
    (∀ t : ℤ, get_cost_in_cp (convert_to_coins t) = t) ∧
    (∀ c : Coins, 0 ≤ c.gp → c.gp ≤ 4 → 0 ≤ c.sp → c.sp ≤ 9 →
      0 ≤ c.cp → c.cp ≤ 9 → cp_to_coins (coins_to_cp c) = c) ∧
    (∀ c : Coins, 0 ≤ c.gp → c.gp ≤ 9 → 0 ≤ c.sp → c.sp ≤ 9 →
      0 ≤ c.cp → c.cp ≤ 9 → convert_to_coins (get_cost_in_cp c) = c) := by
  have hdiv : ∀ (a b : ℤ), 0 < b → a.fdiv b = a / b := fun a b hb =>
    Int.fdiv_eq_ediv a hb.le
  have hmod : ∀ (a b : ℤ), 0 < b → a.fmod b = a % b := fun a b hb =>
    Int.fmod_eq_emod a hb.le
  refine ⟨?_, ?_, ?_, ?_⟩
  · intro t
    simp only [coins_to_cp, cp_to_coins, COIN_VALUES]
    rw [hdiv _ _ (by norm_num), hmod _ _ (by norm_num),
      hdiv _ _ (by norm_num), hmod _ _ (by norm_num),
      hdiv _ _ (by norm_num), hmod _ _ (by norm_num),
      Int.fdiv_one]
    omega
  · intro t
    simp only [get_cost_in_cp, convert_to_coins]
    rw [hdiv _ _ (by norm_num), hmod _ _ (by norm_num),
      hdiv _ _ (by norm_num), hmod _ _ (by norm_num),
      hdiv _ _ (by norm_num), hmod _ _ (by norm_num)]
    omega
  · rintro ⟨pp, gp, sp, cp⟩ h1 h2 h3 h4 h5 h6
    simp only [coins_to_cp, cp_to_coins, COIN_VALUES, Coins.mk.injEq]
    rw [hdiv _ _ (by norm_num), hmod _ _ (by norm_num),
      hdiv _ _ (by norm_num), hmod _ _ (by norm_num),
      hdiv _ _ (by norm_num), hmod _ _ (by norm_num),
      Int.fdiv_one]
    simp only at h1 h2 h3 h4 h5 h6
    omega
  · rintro ⟨pp, gp, sp, cp⟩ h1 h2 h3 h4 h5 h6
    simp only [get_cost_in_cp, convert_to_coins, Coins.mk.injEq]
    rw [hdiv _ _ (by norm_num), hmod _ _ (by norm_num),
      hdiv _ _ (by norm_num), hmod _ _ (by norm_num),
      hdiv _ _ (by norm_num), hmod _ _ (by norm_num)]
    simp only at h1 h2 h3 h4 h5 h6
    omega

/-- C3 witness: the amended round trips at concrete inputs. -/
theorem C3_roundtrip_amended_witness :
    coins_to_cp (cp_to_coins 12345) = 12345 ∧
    get_cost_in_cp (convert_to_coins 12345) = 12345 ∧
    cp_to_coins (coins_to_cp { pp := 7, gp := 4, sp := 9, cp := 9 }) =
      { pp := 7, gp := 4, sp := 9, cp := 9 } ∧
    convert_to_coins (get_cost_in_cp { pp := 7, gp := 9, sp := 9, cp := 9 }) =
      { pp := 7, gp := 9, sp := 9, cp := 9 } :=
  ⟨C3_roundtrip_amended.1 12345, C3_roundtrip_amended.2.1 12345,
   C3_roundtrip_amended.2.2.1 _ (by decide) (by decide) (by decide) (by decide)
     (by decide) (by decide),
   C3_roundtrip_amended.2.2.2 _ (by decide) (by decide) (by decide) (by decide)
     (by decide) (by decide)⟩

/-- The armor-class formula exactly as claim C8 words it: the dexterity term
follows `add_dex` / `max_dex`, and the shield bonus is added on top of
either case (armor or no armor). -/
def claimed_armor_class (armor : Option ArmorDict) (shield : Option ShieldDict)
    (dex_modifier : ℤ) : ℤ :=
  (match armor with
   | none => 10 + dex_modifier
   | some a =>
     a.ac + (if a.add_dex then
               match a.max_dex with
               | some m => min dex_modifier m
               | none => dex_modifier
             else 0)) +
  (match shield with
   | some s => s.ac_bonus
   | none => 0)

/-- The armor-class formula with the one correction the code forces: the
shield bonus is added only when armor is worn; with no armor the shield is
ignored and the result is 10 + dex. -/
def amended_armor_class (armor : Option ArmorDict) (shield : Option ShieldDict)
    (dex_modifier : ℤ) : ℤ :=
  match armor with
  | none => 10 + dex_modifier
  | some a =>
    a.ac + (if a.add_dex then
              match a.max_dex with
              | some m => min dex_modifier m
              | none => dex_modifier
            else 0) +
    (match shield with
     | some s => s.ac_bonus
     | none => 0)

/-- C8 counterexample: a character with no armor, a shield of bonus +2 and
dexterity modifier 0 gets AC 10 from `calculate_ac` (the early return skips
the shield), not the 12 the claim's formula gives. -/
theorem C8_shield_counterexample :
    calculate_ac none (some ⟨2⟩) 0 = 10 ∧
    claimed_armor_class none (some ⟨2⟩) 0 = 12 ∧
    calculate_ac none (some ⟨2⟩) 0 ≠ claimed_armor_class none (some ⟨2⟩) 0 := by
  refine ⟨by decide, by decide, by decide⟩

/-- C8 amended: `calculate_ac` agrees everywhere with the claim's formula
amended so that the shield bonus only applies when armor is worn. -/
theorem C8_calculate_ac_amended :
    ∀ (armor : Option ArmorDict) (shield : Option ShieldDict) (dex : ℤ),
      calculate_ac armor shield dex = amended_armor_class armor shield dex := by
  intro armor shield dex
  cases armor with
  | none => cases shield <;> rfl
  | some a =>
    obtain ⟨ac, add_dex, max_dex⟩ := a
    cases shield <;> cases add_dex <;> cases max_dex <;>
      simp [calculate_ac, amended_armor_class]

/-- C9 core: on four dice each in 3..6, dropping the lowest and summing the
rest yields the sum of the three highest, which lies in 9..18. -/
theorem roll_stat_dice_core :
    ∀ a ∈ Finset.Icc 3 6, ∀ b ∈ Finset.Icc 3 6, ∀ c ∈ Finset.Icc 3 6,
      ∀ d ∈ Finset.Icc 3 6,
      roll_stat_dice a b c d = sum_three_highest a b c d ∧
      9 ≤ roll_stat_dice a b c d ∧ roll_stat_dice a b c d ≤ 18 := by decide

/-- The reroll loop returns the first stream element above 2; if the stream
draws from 1..6 and eventually shows a value above 2, the result is in 3..6. -/
theorem reroll_die_range (stream : List ℕ)
    (hall : ∀ r ∈ stream, 1 ≤ r ∧ r ≤ 6) (hsome : ∃ r ∈ stream, 2 < r) :
    3 ≤ reroll_die stream ∧ reroll_die stream ≤ 6 := by
  unfold reroll_die
  obtain ⟨r, hr, hr2⟩ := hsome
  cases hfind : stream.find? (fun r => decide (2 < r)) with
  | none =>
    exfalso
    have := List.find?_eq_none.mp hfind r hr
    simp at this
    omega
  | some x =>
    have hpx := List.find?_some hfind
    have hmem := List.mem_of_find?_eq_some hfind
    have hx := hall x hmem
    simp only [decide_eq_true_eq] at hpx
    simp only [Option.getD_some]
    omega

/-- C9: every score produced by `roll_stat` on admissible random streams
(each draw in 1..6, each die eventually showing a value above 2) is the sum
of the three highest of four post-reroll dice, each die is in 3..6, and the
score is in 9..18. -/
theorem C9_roll_stat_correct :
    ∀ s1 s2 s3 s4 : List ℕ,
      (∀ r ∈ s1, 1 ≤ r ∧ r ≤ 6) → (∃ r ∈ s1, 2 < r) →
      (∀ r ∈ s2, 1 ≤ r ∧ r ≤ 6) → (∃ r ∈ s2, 2 < r) →
      (∀ r ∈ s3, 1 ≤ r ∧ r ≤ 6) → (∃ r ∈ s3, 2 < r) →
      (∀ r ∈ s4, 1 ≤ r ∧ r ≤ 6) → (∃ r ∈ s4, 2 < r) →
      (3 ≤ reroll_die s1 ∧ reroll_die s1 ≤ 6) ∧
      (3 ≤ reroll_die s2 ∧ reroll_die s2 ≤ 6) ∧
      (3 ≤ reroll_die s3 ∧ reroll_die s3 ≤ 6) ∧
      (3 ≤ reroll_die s4 ∧ reroll_die s4 ≤ 6) ∧
      roll_stat s1 s2 s3 s4 =
        sum_three_highest (reroll_die s1) (reroll_die s2) (reroll_die s3)
          (reroll_die s4) ∧
      9 ≤ roll_stat s1 s2 s3 s4 ∧ roll_stat s1 s2 s3 s4 ≤ 18 := by
  intro s1 s2 s3 s4 ha1 he1 ha2 he2 ha3 he3 ha4 he4
  have h1 := reroll_die_range s1 ha1 he1
  have h2 := reroll_die_range s2 ha2 he2
  have h3 := reroll_die_range s3 ha3 he3
  have h4 := reroll_die_range s4 ha4 he4
  have hcore := roll_stat_dice_core (reroll_die s1)
    (Finset.mem_Icc.mpr ⟨h1.1, h1.2⟩) (reroll_die s2)
    (Finset.mem_Icc.mpr ⟨h2.1, h2.2⟩) (reroll_die s3)
    (Finset.mem_Icc.mpr ⟨h3.1, h3.2⟩) (reroll_die s4)
    (Finset.mem_Icc.mpr ⟨h4.1, h4.2⟩)
  exact ⟨h1, h2, h3, h4, hcore.1, hcore.2.1, hcore.2.2⟩

/-- C9 witness: concrete random streams (a 1 rerolled into a 4, a 2 rerolled
into a 6) give the score 15 = 4 + 5 + 6, within 9..18. -/
theorem C9_roll_stat_witness :
    (3 ≤ reroll_die [1, 4] ∧ reroll_die [1, 4] ≤ 6) ∧
    (3 ≤ reroll_die [3] ∧ reroll_die [3] ≤ 6) ∧
    (3 ≤ reroll_die [2, 6] ∧ reroll_die [2, 6] ≤ 6) ∧
    (3 ≤ reroll_die [5] ∧ reroll_die [5] ≤ 6) ∧
    roll_stat [1, 4] [3] [2, 6] [5] =
      sum_three_highest (reroll_die [1, 4]) (reroll_die [3]) (reroll_die [2, 6])
        (reroll_die [5]) ∧
    9 ≤ roll_stat [1, 4] [3] [2, 6] [5] ∧ roll_stat [1, 4] [3] [2, 6] [5] ≤ 18 :=
  C9_roll_stat_correct [1, 4] [3] [2, 6] [5]
    (by decide) (by decide) (by decide) (by decide)
    (by decide) (by decide) (by decide) (by decide)

/-- A session that has previously stored a Rogue expertise selection. -/
def C5_prior_session : Session :=
  { charClass := some .Rogue,
    skill_proficiencies := some ["Stealth", "Acrobatics", "Deception", "Insight"],
    expertise := some ["Stealth", "Deception"] }

/-- C5 counterexample: re-choosing Rogue clears the stored skills but leaves
the previously stored expertise selection in place — `step3_class` only
clears `expertise` for non-Rogue classes, so the clearing is not
"regardless of which class is chosen". -/
theorem C5_class_change_counterexample :
    (step3_class C5_prior_session .Rogue none).expertise =
      some ["Stealth", "Deception"] ∧
    (step3_class C5_prior_session .Rogue none).expertise ≠ some [] ∧
    (step3_class C5_prior_session .Rogue none).expertise ≠ none ∧
    (step3_class C5_prior_session .Rogue none).skill_proficiencies = none := by
  refine ⟨by decide, by decide, by decide, by decide⟩

/-- C5 amended: choosing any class clears the stored skills, equipment,
remaining coins, fighting style and spell selections and sets
max HP = hit die + constitution modifier (no floor) with current HP = max HP;
the stored expertise, however, is cleared only when the chosen class is not
Rogue and is left untouched when Rogue is chosen. -/
theorem C5_step3_class_amended :
    ∀ (s : Session) (c : CharClass) (p : Option String),
      (step3_class s c p).charClass = some c ∧
      (step3_class s c p).equipment = none ∧
      (step3_class s c p).coins_left = none ∧
      (step3_class s c p).skill_proficiencies = none ∧
      (step3_class s c p).fighting_style = none ∧
      (step3_class s c p).cantrips = none ∧
      (step3_class s c p).level1_spells = none ∧
      (c ≠ .Rogue → (step3_class s c p).expertise = some []) ∧
      (c = .Rogue → (step3_class s c p).expertise = s.expertise) ∧
      (step3_class s c p).max_hp =
        some (CLASS_HIT_DIE c + s.constitution_modifier.getD 0) ∧
      (step3_class s c p).current_hp =
        some (CLASS_HIT_DIE c + s.constitution_modifier.getD 0) := by
  intro s c p
  cases c <;> cases p <;> simp [step3_class]

/-- C5 witness: the amended theorem at a concrete session (a Wizard with
constitution modifier -2, so max HP = 6 - 2 = 4, below any floor of 1 + die
logic and with current HP equal to it). -/
theorem C5_step3_class_amended_witness :
    (step3_class { constitution_modifier := some (-2) } .Wizard none).expertise =
      some [] ∧
    (step3_class { constitution_modifier := some (-2) } .Wizard none).max_hp =
      some 4 ∧
    (step3_class { constitution_modifier := some (-2) } .Wizard none).current_hp =
      some 4 := by
  have h := C5_step3_class_amended { constitution_modifier := some (-2) } .Wizard none
  refine ⟨h.2.2.2.2.2.2.2.1 (by decide), ?_, ?_⟩
  · have := h.2.2.2.2.2.2.2.2.2.1
    simpa using this
  · have := h.2.2.2.2.2.2.2.2.2.2
    simpa using this

/-- C6 counterexample: submitting 3 made-up cantrip ids and 6 made-up
first-level spell ids to the Wizard spell step succeeds even though none of
the ids is drawn from the class's spell lists — the handler checks only the
counts, never membership. -/
theorem C6_spell_membership_counterexample :
    (spell_selection (some .Wizard) 10 ["fake_a", "fake_b", "fake_c"]
        ["fake_1", "fake_2", "fake_3", "fake_4", "fake_5", "fake_6"]).isSuccess =
      true ∧
    "fake_a" ∉ wizard_cantrips ∧ "fake_1" ∉ wizard_level1_spells ∧
    "fake_a" ∉ cleric_cantrips ∧ "fake_1" ∉ level1_cleric_spells := by
  refine ⟨by decide, by decide, by decide, by decide, by decide⟩

/-- C6 amended: for Wizard and Cleric the spell step succeeds exactly when 3
cantrip ids and 6 first-level ids are submitted (membership in the class
spell lists is not checked); a wrong cantrip count flashes the
cantrip-count message, a correct cantrip count with a wrong leveled count
flashes the class-specific leveled-count message, and the two kinds of
message are distinct. -/
theorem C6_spell_selection_amended :
    ∀ (c : CharClass) (w : ℤ) (cans lvl1 : List String),
      c = .Wizard ∨ c = .Cleric →
      ((spell_selection (some c) w cans lvl1).isSuccess = true ↔
        cans.length = 3 ∧ lvl1.length = 6) ∧
      (cans.length ≠ 3 →
        spell_selection (some c) w cans lvl1 =
          .flash_error "Select exactly 3 cantrips.") ∧
      (cans.length = 3 → lvl1.length ≠ 6 →
        spell_selection (some c) w cans lvl1 =
          .flash_error
            (if c = .Wizard then
              "Select exactly 3 cantrips and 6 first-level spells for your spellbook."
             else
              "Select exactly 3 cantrips and 6 first-level spells to prepare.")) ∧
      ("Select exactly 3 cantrips." ≠
        "Select exactly 3 cantrips and 6 first-level spells for your spellbook." ∧
       "Select exactly 3 cantrips." ≠
        "Select exactly 3 cantrips and 6 first-level spells to prepare.") := by
  intro c w cans lvl1 hc
  rcases hc with h | h <;> subst h <;>
    refine ⟨?_, ?_, ?_, by decide, by decide⟩ <;>
    · simp only [spell_selection, SpellStepResult.isSuccess]
      split_ifs <;> simp_all

/-- C6 witness: the amended characterization at concrete inputs (a valid
Wizard submission succeeds; dropping a cantrip fails with the cantrip-count
message). -/
theorem C6_spell_selection_amended_witness :
    ((spell_selection (some .Wizard) 10 ["light", "mage_hand", "fire_bolt"]
        ["sleep", "shield", "magic_missile", "mage_armor", "charm_person",
         "alarm"]).isSuccess = true ↔
      (["light", "mage_hand", "fire_bolt"] : List String).length = 3 ∧
      (["sleep", "shield", "magic_missile", "mage_armor", "charm_person",
        "alarm"] : List String).length = 6) ∧
    spell_selection (some .Wizard) 10 ["light", "mage_hand"]
        ["sleep", "shield", "magic_missile", "mage_armor", "charm_person",
         "alarm"] =
      .flash_error "Select exactly 3 cantrips." :=
  ⟨(C6_spell_selection_amended .Wizard 10 ["light", "mage_hand", "fire_bolt"]
      ["sleep", "shield", "magic_missile", "mage_armor", "charm_person",
       "alarm"] (Or.inl rfl)).1,
   (C6_spell_selection_amended .Wizard 10 ["light", "mage_hand"]
      ["sleep", "shield", "magic_missile", "mage_armor", "charm_person",
       "alarm"] (Or.inl rfl)).2.1 (by decide)⟩

/-- C7: the skills form accepts a submission exactly when the number of
chosen skills equals the class requirement (2 for Cleric and Wizard, 4 for
Rogue), and for Rogue additionally exactly 2 expertise picks, each among the
chosen skills; any other combination is rejected by the validators. -/
theorem C7_skills_form_accepts :
    ∀ (char_class : CharClass) (skills expertise : List String),
      ((char_class = .Cleric ∨ char_class = .Wizard) →
        (skillsFormAccepts char_class skills expertise = true ↔
          skills.length = 2)) ∧
      (char_class = .Rogue →
        (skillsFormAccepts char_class skills expertise = true ↔
          skills.length = 4 ∧ expertise.length = 2 ∧
            ∀ e ∈ expertise, e ∈ skills)) := by
  intro char_class skills expertise
  cases char_class <;>
    simp [skillsFormAccepts, validate_skills, validate_expertise,
      skills_required, List.contains_iff_exists_mem_beq, beq_iff_eq]

/-- C7 witness: a Rogue submission with 4 skills and 2 expertise picks among
them is accepted. -/
theorem C7_skills_form_accepts_witness :
    skillsFormAccepts .Rogue ["Stealth", "Acrobatics", "Deception", "Insight"]
      ["Stealth", "Deception"] = true :=
  ((C7_skills_form_accepts .Rogue
      ["Stealth", "Acrobatics", "Deception", "Insight"]
      ["Stealth", "Deception"]).2 rfl).mpr (by decide)

/-- C10: once a class is chosen, every request to the equipment step resets
the stored remaining funds to the class's full starting gold (Cleric 110,
Fighter 155, Rogue 100, Wizard 55): a GET leaves exactly the full-budget
breakdown behind, and the handler's result never depends on the remaining
funds a previous request stored. -/
theorem C10_equipment_step_resets_funds :
    ∀ (s : Session) (req : Step5Request) (c : CharClass),
      s.charClass = some c →
      (req.method = .GET →
        (step5_equipment s req).coins_left =
          some { pp := 0, gp := class_starting_gold c, sp := 0, cp := 0 }) ∧
      (∀ x : Option Coins,
        step5_equipment { s with coins_left := x } req = step5_equipment s req) ∧
      (class_starting_gold .Cleric = 110 ∧ class_starting_gold .Fighter = 155 ∧
        class_starting_gold .Rogue = 100 ∧ class_starting_gold .Wizard = 55) := by
  intro s req c hc
  refine ⟨?_, ?_, by decide⟩
  · intro hm
    obtain ⟨m, a, f, r⟩ := req
    simp only at hm
    subst hm
    cases r <;> simp [step5_equipment, hc]
  · intro x
    obtain ⟨f1, f2, f3, f4, f5, f6, f7, f8, f9, f10, f11, f12, f13, f14, f15,
      f16⟩ := s
    simp only at hc
    subst hc
    obtain ⟨m, a, f, r⟩ := req
    cases m <;> cases r <;> rfl

/-- C10 witness: the reset at a concrete session — a Fighter who previously
had 3 gp left gets the full 155 gp budget back on a GET. -/
theorem C10_equipment_step_resets_funds_witness :
    (step5_equipment
        { charClass := some .Fighter, coins_left := some { gp := 3 } }
        { method := .GET }).coins_left =
      some { pp := 0, gp := class_starting_gold .Fighter, sp := 0, cp := 0 } :=
  (C10_equipment_step_resets_funds
      { charClass := some .Fighter, coins_left := some { gp := 3 } }
      { method := .GET } .Fighter rfl).1 rfl

/-- A validated form never exceeds the budget. -/
theorem validate_total_le_budget {char_class : CharClass}
    {form : EquipmentFormData} {budget : ℚ} {action : String}
    (h : EquipmentForm.validate char_class form budget action = true) :
    calculate_total_cost form ≤ budget := by
  by_contra hlt
  rw [not_le] at hlt
  simp only [EquipmentForm.validate] at h
  split_ifs at h <;> simp_all

/-- A Wizard submitting light armor only (Leather, 10 gp, within the 55 gp
budget). -/
def C4_wizard_armor_form : EquipmentFormData :=
  { armor := some (.light, "Leather") }

/-- Total cost of the C4 counterexample form. -/
theorem C4_cost_leather : calculate_total_cost C4_wizard_armor_form = 10 := by
  simp [calculate_total_cost, C4_wizard_armor_form, findArmor, ARMOR,
    specialSlotCost, optionCost, EquipmentForm_convert_to_gp, costGp,
    List.find?]

/-- The C4 counterexample form fails `EquipmentForm.validate` for a Wizard. -/
theorem C4_validate_false :
    EquipmentForm.validate .Wizard C4_wizard_armor_form 55 "purchase" = false := by
  have hch : choices_ok C4_wizard_armor_form = true := by decide
  have hpr : has_armor_proficiency .Wizard "light" = false := by decide
  simp only [EquipmentForm.validate, hch, C4_cost_leather, C4_wizard_armor_form]
  norm_num [hpr, ArmorCat.str]

/-- C4 counterexample: an armor selection the class is not proficient with is
REJECTED by validation, not merely flagged: a Wizard buying Leather armor
(10 gp, within the 55 gp budget, a legal catalog choice) has
`EquipmentForm.validate` return false, and the purchase request commits
nothing. -/
theorem C4_armor_rejection_counterexample :
    has_armor_proficiency .Wizard "light" = false ∧
    choices_ok C4_wizard_armor_form = true ∧
    calculate_total_cost C4_wizard_armor_form ≤ 55 ∧
    EquipmentForm.validate .Wizard C4_wizard_armor_form 55 "purchase" = false ∧
    (step5_equipment { charClass := some .Wizard }
        { method := .POST, action := "purchase",
          form := C4_wizard_armor_form }).equipment = none := by
  refine ⟨by decide, by decide, ?_, C4_validate_false, ?_⟩
  · rw [C4_cost_leather]; norm_num
  · norm_num [step5_equipment, class_starting_gold, C4_validate_false]

/-- Validation passes whenever the catalog choices are legal, the cost is
within budget, any selected armor is proficient, and the class-specific
focus/symbol restrictions hold — shields and weapons are never consulted. -/
theorem validate_passes_of_checks :
    ∀ (cls : CharClass) (form : EquipmentFormData) (budget : ℚ)
        (action : String),
      choices_ok form = true →
      calculate_total_cost form ≤ budget →
      (∀ cat name, form.armor = some (cat, name) →
        has_armor_proficiency cls cat.str = true) →
      (cls = .Wizard → form.special_equipment.has_holy_symbol = false ∨
        form.special_equipment.holy_symbol_selection = none) →
      (cls = .Cleric → form.special_equipment.has_arcane_focus = false ∨
        form.special_equipment.arcane_focus_selection = none) →
      EquipmentForm.validate cls form budget action = true := by
  intro cls form budget action hch hle harm hwiz hcle
  simp only [EquipmentForm.validate]
  split_ifs with h1 h2 h3 h4 h5 h6
  · simp [hch] at h1
  · exact absurd h2 (not_lt.mpr hle)
  · rcases hfa : form.armor with _ | ⟨cat, name⟩
    · simp [hfa] at h3
    · rw [hfa] at h3
      simp [harm cat name hfa] at h3
  · simp only [Bool.and_eq_true, beq_iff_eq] at h4
    rcases hwiz h4.1.1 with h | h
    · simp [h] at h4
    · simp [h] at h4
  · simp only [Bool.and_eq_true, beq_iff_eq] at h5
    rcases hcle h5.1.1 with h | h
    · simp [h] at h5
    · simp [h] at h5
  · simp only [Bool.and_eq_true] at h6
    exact absurd h6.2 (by simp [not_lt.mpr hle])
  · rfl

/-- A validated purchase POST commits: the resolved, flag-annotated equipment
is stored and the remaining funds are converted and stored. -/
theorem step5_purchase_result :
    ∀ (s : Session) (cls : CharClass) (form : EquipmentFormData),
      s.charClass = some cls →
      EquipmentForm.validate cls form ((class_starting_gold cls : ℤ) : ℚ)
          "purchase" = true →
      (step5_equipment s
          { method := .POST, action := "purchase", form := form }).equipment =
        some (resolve_with_flags cls form s.dex_mod) ∧
      (step5_equipment s
          { method := .POST, action := "purchase", form := form }).coins_left =
        some (convert_gp_to_coins (((class_starting_gold cls : ℤ) : ℚ) -
          calculate_total_cost form)) := by
  intro s cls form hc hval
  have hle := validate_total_le_budget hval
  constructor <;>
  · simp only [step5_equipment, hc]
    norm_num
    rw [if_pos hval]
    norm_num [EquipmentForm.remaining_funds]
    simp [hle]

/-- C4 amended: shield and weapon proficiency mismatches are only flagged,
never block — validation passes whenever the catalog choices are legal, the
cost is within budget, any selected armor is proficient and the
class-specific focus/symbol restrictions hold, irrespective of shields and
weapons (first part); an armor proficiency mismatch by itself makes
validation reject (second part); a validated purchase always commits, storing
the proficiency warnings alongside (third part); and a non-proficient shield
or martial weapon produces its human-readable warning entry (fourth part). -/
theorem C4_proficiency_amended :
    (∀ (cls : CharClass) (form : EquipmentFormData) (budget : ℚ)
        (action : String),
      choices_ok form = true →
      calculate_total_cost form ≤ budget →
      (∀ cat name, form.armor = some (cat, name) →
        has_armor_proficiency cls cat.str = true) →
      (cls = .Wizard → form.special_equipment.has_holy_symbol = false ∨
        form.special_equipment.holy_symbol_selection = none) →
      (cls = .Cleric → form.special_equipment.has_arcane_focus = false ∨
        form.special_equipment.arcane_focus_selection = none) →
      EquipmentForm.validate cls form budget action = true) ∧
    (∀ (cls : CharClass) (form : EquipmentFormData) (budget : ℚ)
        (action : String) (cat : ArmorCat) (name : String),
      form.armor = some (cat, name) →
      has_armor_proficiency cls cat.str = false →
      EquipmentForm.validate cls form budget action = false) ∧
    (∀ (s : Session) (cls : CharClass) (form : EquipmentFormData),
      s.charClass = some cls →
      EquipmentForm.validate cls form ((class_starting_gold cls : ℤ) : ℚ)
          "purchase" = true →
      (step5_equipment s
          { method := .POST, action := "purchase", form := form }).equipment =
        some (resolve_with_flags cls form s.dex_mod)) ∧
    (∀ (cls : CharClass) (sel : SelectedEquipment) (sh : ResolvedShield),
      sel.shield = some sh → has_armor_proficiency cls "shields" = false →
      (⟨sh.name, "shield", "Not proficient with shields"⟩ : UnusableItem) ∈
        compute_unusable_items cls sel) ∧
    (∀ (cls : CharClass) (sel : SelectedEquipment) (w : ResolvedWeapon),
      w ∈ sel.weapons → w.category.str.startsWith "martial" = true →
      has_weapon_proficiency cls w.category.str = false →
      (⟨w.name, "weapon", "Not proficient with martial weapons"⟩ :
          UnusableItem) ∈
        compute_unusable_items cls sel) := by
  refine ⟨validate_passes_of_checks, ?_, ?_, ?_, ?_⟩
  · intro cls form budget action cat name hfa hprof
    simp only [EquipmentForm.validate, hfa]
    split_ifs <;> simp_all
  · intro s cls form hc hval
    exact (step5_purchase_result s cls form hc hval).1
  · intro cls sel sh hsh hprof
    simp [compute_unusable_items, hsh, hprof]
  · intro cls sel w hw hmart hprof
    simp only [compute_unusable_items, List.mem_append]
    refine Or.inr ?_
    simp only [List.mem_filterMap]
    exact ⟨w, hw, by simp [hmart, hprof]⟩

/-- C4 witness: a Wizard (not proficient with shields) buying only a shield
passes validation, the purchase commits, and the stored warning list carries
the shield's human-readable reason. -/
theorem C4_proficiency_amended_witness :
    EquipmentForm.validate .Wizard { shield := some "Shield" }
      ((class_starting_gold .Wizard : ℤ) : ℚ) "purchase" = true ∧
    (step5_equipment { charClass := some .Wizard }
        { method := .POST, action := "purchase",
          form := { shield := some "Shield" } }).equipment =
      some (resolve_with_flags .Wizard { shield := some "Shield" }
        (Session.dex_mod { charClass := some .Wizard })) ∧
    (⟨"Shield", "shield", "Not proficient with shields"⟩ : UnusableItem) ∈
      compute_unusable_items .Wizard
        (selected_equipment { shield := some "Shield" }) := by
  have hcost : calculate_total_cost { shield := some "Shield" } = 10 := by
    simp [calculate_total_cost, findShield, ARMOR_shield, specialSlotCost,
      optionCost, EquipmentForm_convert_to_gp, costGp, List.find?]
  have hval := C4_proficiency_amended.1 .Wizard { shield := some "Shield" }
    ((class_starting_gold .Wizard : ℤ) : ℚ) "purchase" (by decide)
    (by rw [hcost]; norm_num [class_starting_gold])
    (by intro cat name h; simp at h)
    (fun _ => Or.inl rfl)
    (fun h => absurd h (by decide))
  refine ⟨hval, C4_proficiency_amended.2.2.1 _ _ _ rfl hval,
    C4_proficiency_amended.2.2.2.1 .Wizard _ ⟨"Shield", 2, costGp 10⟩
      (by decide) (by decide)⟩

/-- A validated preview POST leaves the stored equipment alone but STORES the
converted remaining funds in the session (characters.py line 647 runs before
the action dispatch). -/
theorem step5_preview_result :
    ∀ (s : Session) (cls : CharClass) (form : EquipmentFormData),
      s.charClass = some cls →
      EquipmentForm.validate cls form ((class_starting_gold cls : ℤ) : ℚ)
          "preview" = true →
      (step5_equipment s
          { method := .POST, action := "preview", form := form }).equipment =
        s.equipment ∧
      (step5_equipment s
          { method := .POST, action := "preview", form := form }).coins_left =
        some (convert_gp_to_coins (((class_starting_gold cls : ℤ) : ℚ) -
          calculate_total_cost form)) := by
  intro s cls form hc hval
  constructor <;>
  · simp only [step5_equipment, hc]
    norm_num
    rw [if_pos hval]
    simp

/-- A form whose total cost exceeds the budget fails validation. -/
theorem validate_fails_of_budget :
    ∀ (cls : CharClass) (form : EquipmentFormData) (budget : ℚ)
        (action : String),
      calculate_total_cost form > budget →
      EquipmentForm.validate cls form budget action = false := by
  intro cls form budget action hgt
  simp only [EquipmentForm.validate]
  split_ifs <;> first
    | rfl
    | exact absurd hgt (by assumption)

/-- A POST whose form fails validation (with a regular action) leaves behind
exactly the entry state: the coins reset to the full class budget and the
previous equipment untouched. -/
theorem step5_invalid_post_result :
    ∀ (s : Session) (cls : CharClass) (form : EquipmentFormData)
        (action : String),
      s.charClass = some cls →
      (action == "toggle_special") = false →
      (action == "update_spells") = false →
      EquipmentForm.validate cls form ((class_starting_gold cls : ℤ) : ℚ)
          action = false →
      step5_equipment s { method := .POST, action := action, form := form } =
        { s with coins_left := some ⟨0, class_starting_gold cls, 0, 0⟩,
                 previous_class := some cls } := by
  intro s cls form action hc h1 h2 hval
  simp only [step5_equipment, hc]
  norm_num at h1 h2 ⊢
  rw [if_neg (by simp [h1]), if_neg (by simp [h2]), if_neg (by simp [hval])]
  rw [hc]

/-- A session in which an earlier committed purchase left 53 gp
(stored as 5 pp + 3 gp). -/
def C1_prior_session : Session :=
  { charClass := some .Wizard, coins_left := some { pp := 5, gp := 3 } }

/-- Total cost of the empty selection. -/
theorem C1_empty_form_cost : calculate_total_cost {} = 0 := by
  simp [calculate_total_cost, specialSlotCost]

/-- The empty selection passes validation for a Wizard. -/
theorem C1_empty_form_valid :
    ∀ action : String,
      EquipmentForm.validate .Wizard {}
        ((class_starting_gold .Wizard : ℤ) : ℚ) action = true := by
  intro action
  refine validate_passes_of_checks .Wizard {} _ action (by decide) ?_
    (by intro cat name h; simp at h) (fun _ => Or.inl rfl)
    (fun h => absurd h (by decide))
  rw [C1_empty_form_cost]
  norm_num [class_starting_gold]

/-- C1 counterexample: a preview request does NOT leave the stored
remaining-funds coin breakdown unchanged.  A Wizard session holding
5 pp + 3 gp from an earlier purchase submits an empty selection with
action "preview": the stored equipment is untouched, but the stored coin
breakdown becomes 5 pp + 5 gp (the full 55 gp budget re-converted), which
differs from the state before the request. -/
theorem C1_preview_mutation_counterexample :
    C1_prior_session.coins_left = some { pp := 5, gp := 3 } ∧
    (step5_equipment C1_prior_session
        { method := .POST, action := "preview" }).equipment =
      C1_prior_session.equipment ∧
    (step5_equipment C1_prior_session
        { method := .POST, action := "preview" }).coins_left =
      some { pp := 5, gp := 5 } ∧
    (step5_equipment C1_prior_session
        { method := .POST, action := "preview" }).coins_left ≠
      C1_prior_session.coins_left := by
  have h := step5_preview_result C1_prior_session .Wizard {} rfl
    (C1_empty_form_valid "preview")
  have hconv : convert_gp_to_coins (((class_starting_gold .Wizard : ℤ) : ℚ) -
      calculate_total_cost {}) = { pp := 5, gp := 5, sp := 0, cp := 0 } := by
    rw [C1_empty_form_cost]
    norm_num [convert_gp_to_coins, class_starting_gold, Coins.mk.injEq]
  refine ⟨rfl, h.1, ?_, ?_⟩
  · rw [h.2, hconv]
  · rw [h.2, hconv]
    decide

/-- C1 amended: on a valid selection, BOTH preview and purchase store the
converted remaining funds (the budget being the class's full starting gold,
freshly reset); preview leaves the stored equipment unchanged; purchase
always commits the resolved equipment when validation passes (remaining
funds ≥ 0 is then automatic, since validation already rejects any selection
over budget); and when the total cost exceeds the budget the purchase fails
validation, stores no equipment, and leaves the coin breakdown at the
freshly reset full starting budget (not at its pre-request value). -/
theorem C1_preview_purchase_amended :
    ∀ (s : Session) (cls : CharClass) (form : EquipmentFormData),
      s.charClass = some cls →
      (EquipmentForm.validate cls form ((class_starting_gold cls : ℤ) : ℚ)
          "preview" = true →
        (step5_equipment s
            { method := .POST, action := "preview", form := form }).equipment =
          s.equipment ∧
        (step5_equipment s
            { method := .POST, action := "preview", form := form }).coins_left =
          some (convert_gp_to_coins (((class_starting_gold cls : ℤ) : ℚ) -
            calculate_total_cost form))) ∧
      (EquipmentForm.validate cls form ((class_starting_gold cls : ℤ) : ℚ)
          "purchase" = true →
        ((class_starting_gold cls : ℤ) : ℚ) - calculate_total_cost form ≥ 0 ∧
        (step5_equipment s
            { method := .POST, action := "purchase", form := form }).equipment =
          some (resolve_with_flags cls form s.dex_mod) ∧
        (step5_equipment s
            { method := .POST, action := "purchase", form := form }).coins_left =
          some (convert_gp_to_coins (((class_starting_gold cls : ℤ) : ℚ) -
            calculate_total_cost form))) ∧
      (calculate_total_cost form > ((class_starting_gold cls : ℤ) : ℚ) →
        EquipmentForm.validate cls form ((class_starting_gold cls : ℤ) : ℚ)
          "purchase" = false ∧
        (step5_equipment s
            { method := .POST, action := "purchase", form := form }).equipment =
          s.equipment ∧
        (step5_equipment s
            { method := .POST, action := "purchase", form := form }).coins_left =
          some ⟨0, class_starting_gold cls, 0, 0⟩) := by
  intro s cls form hc
  refine ⟨fun hval => step5_preview_result s cls form hc hval, ?_, ?_⟩
  · intro hval
    have hle := validate_total_le_budget hval
    have h := step5_purchase_result s cls form hc hval
    exact ⟨by linarith, h.1, h.2⟩
  · intro hgt
    have hval := validate_fails_of_budget cls form
      ((class_starting_gold cls : ℤ) : ℚ) "purchase" hgt
    have h := step5_invalid_post_result s cls form "purchase" hc
      (by decide) (by decide) hval
    rw [h]
    exact ⟨hval, rfl, rfl⟩

/-- Total cost of a magnifying glass (100 gp). -/
theorem C1_glass_cost :
    calculate_total_cost { adventuring_gear := ["magnifying_glass"] } = 100 := by
  simp [calculate_total_cost, specialSlotCost, optionCost, ADVENTURING_GEAR,
    EquipmentForm_convert_to_gp, costGp, List.find?]

/-- C1 witness: a Wizard previewing and then purchasing the empty selection
(both store the converted 55 gp), and attempting to purchase a 100 gp
magnifying glass on the 55 gp budget (validation fails, nothing stored,
coins left at the full reset budget). -/
theorem C1_preview_purchase_amended_witness :
    ((step5_equipment C1_prior_session
        { method := .POST, action := "preview" }).equipment =
      C1_prior_session.equipment ∧
      (step5_equipment C1_prior_session
          { method := .POST, action := "preview" }).coins_left =
        some (convert_gp_to_coins (((class_starting_gold .Wizard : ℤ) : ℚ) -
          calculate_total_cost {}))) ∧
    (((class_starting_gold .Wizard : ℤ) : ℚ) - calculate_total_cost {} ≥ 0 ∧
      (step5_equipment C1_prior_session
          { method := .POST, action := "purchase" }).equipment =
        some (resolve_with_flags .Wizard {} C1_prior_session.dex_mod) ∧
      (step5_equipment C1_prior_session
          { method := .POST, action := "purchase" }).coins_left =
        some (convert_gp_to_coins (((class_starting_gold .Wizard : ℤ) : ℚ) -
          calculate_total_cost {}))) ∧
    (EquipmentForm.validate .Wizard { adventuring_gear := ["magnifying_glass"] }
        ((class_starting_gold .Wizard : ℤ) : ℚ) "purchase" = false ∧
      (step5_equipment C1_prior_session
          { method := .POST, action := "purchase",
            form := { adventuring_gear := ["magnifying_glass"] } }).equipment =
        C1_prior_session.equipment ∧
      (step5_equipment C1_prior_session
          { method := .POST, action := "purchase",
            form := { adventuring_gear := ["magnifying_glass"] } }).coins_left =
        some ⟨0, class_starting_gold .Wizard, 0, 0⟩) := by
  have h := C1_preview_purchase_amended C1_prior_session .Wizard {} rfl
  have hg := C1_preview_purchase_amended C1_prior_session .Wizard
    { adventuring_gear := ["magnifying_glass"] } rfl
  exact ⟨h.1 (C1_empty_form_valid "preview"),
    h.2.1 (C1_empty_form_valid "purchase"),
    hg.2.2 (by rw [C1_glass_cost]; norm_num [class_starting_gold])⟩

end DndBuilder
